import Mathlib

/-!
Verification of the Calculadora Comercial funnel application (src/app.py).

The development shallowly embeds the Python source. Python floats are
modelled as exact rationals: every numeric literal the program handles is
decimal, and all arithmetic in the claims is modelled over the rational
value it denotes. Python int(), round(x, 2) (ties to even) and math.ceil
are modelled by explicit truncation, half-even rounding and ceiling on
rationals. Strings are modelled as Lean strings; the single-character
str.replace calls of the source become character maps and filters over the
character list.
-/

/-- A Python float value as produced by float(str): either a finite value
(modelled as the exact rational the parsed numeral denotes), an infinity,
or a NaN. -/
inductive PyFloat where
  | finite (q : ℚ)
  | inf
  | ninf
  | nan
deriving DecidableEq, Repr

/-- True for the finite values, false for infinities and NaN. -/
def PyFloat.isFinite : PyFloat → Bool
  | PyFloat.finite _ => true
  | _ => false

/-- The digit data of a parsed Python float numeral: sign, integer part,
fractional digits (value and digit count), exponent sign and exponent.
The denoted rational is computed by partsVal. -/
structure NumParts where
  neg : Bool
  ip : ℕ
  fv : ℕ
  fcnt : ℕ
  eneg : Bool
  ev : ℕ
deriving DecidableEq, Repr

/-- The exact rational value denoted by a parsed numeral. -/
def partsVal (p : NumParts) : ℚ :=
  let mant : ℚ := (p.ip : ℚ) + (p.fv : ℚ) / (10 : ℚ) ^ p.fcnt
  let scaled : ℚ := if p.eneg then mant / (10 : ℚ) ^ p.ev else mant * (10 : ℚ) ^ p.ev
  if p.neg then -scaled else scaled

/-- Consumes a Python digitpart continuation: digits, with single
underscores allowed between digits. Accumulates the value and the digit
count and returns the unconsumed remainder. -/
def parseUDigitsAux : ℕ → ℕ → List Char → ℕ × ℕ × List Char
  | acc, cnt, [] => (acc, cnt, [])
  | acc, cnt, c :: rest =>
    if c.isDigit then parseUDigitsAux (10 * acc + (c.toNat - 48)) (cnt + 1) rest
    else if c = '_' then
      match rest with
      | d :: rest2 =>
        if d.isDigit then parseUDigitsAux (10 * acc + (d.toNat - 48)) (cnt + 1) rest2
        else (acc, cnt, c :: rest)
      | [] => (acc, cnt, [c])
    else (acc, cnt, c :: rest)

/-- A Python digitpart: a digit followed by digits with optional single
underscores between them. Returns none when the input does not start with
a digit. -/
def parseUDigits (l : List Char) : Option (ℕ × ℕ × List Char) :=
  match l with
  | c :: rest => if c.isDigit then some (parseUDigitsAux (c.toNat - 48) 1 rest) else none
  | [] => none

/-- The body of a Python float numeral after the optional sign:
[digitpart] [. [digitpart]] [(e|E) [sign] digitpart], requiring at least
one mantissa digit and no unconsumed characters. -/
def parseMantExp (l : List Char) : Option NumParts :=
  let s1 : ℕ × ℕ × List Char :=
    match parseUDigits l with
    | some r => r
    | none => (0, 0, l)
  let ip := s1.1
  let icnt := s1.2.1
  let r1 := s1.2.2
  let s2 : ℕ × ℕ × List Char :=
    match r1 with
    | '.' :: r =>
      (match parseUDigits r with
       | some t => t
       | none => (0, 0, r))
    | _ => (0, 0, r1)
  let fv := s2.1
  let fcnt := s2.2.1
  let r2 := s2.2.2
  if icnt = 0 && fcnt = 0 then none
  else
    match r2 with
    | [] => some ⟨false, ip, fv, fcnt, false, 0⟩
    | e :: r4 =>
      if e = 'e' || e = 'E' then
        let s3 : Bool × List Char :=
          match r4 with
          | '+' :: r => (false, r)
          | '-' :: r => (true, r)
          | _ => (false, r4)
        match parseUDigits s3.2 with
        | some (ev, _, []) => some ⟨false, ip, fv, fcnt, s3.1, ev⟩
        | _ => none
      else none

/-- Python float(string) on an already stripped string: an optional sign
followed by inf, infinity or nan (case-insensitive) or a decimal numeral.
Returns none when the string is not a valid float literal. -/
def pyFloatOfChars (l : List Char) : Option PyFloat :=
  let signSplit : Bool × List Char :=
    match l with
    | '+' :: r => (false, r)
    | '-' :: r => (true, r)
    | _ => (false, l)
  let neg := signSplit.1
  let rest := signSplit.2
  let low := rest.map Char.toLower
  if low = "inf".toList || low = "infinity".toList then
    some (if neg then PyFloat.ninf else PyFloat.inf)
  else if low = "nan".toList then
    some PyFloat.nan
  else
    match parseMantExp rest with
    | some parts => some (PyFloat.finite (partsVal { parts with neg := neg }))
    | none => none

/-- Python str.strip whitespace (ASCII range). -/
def isPySpace (c : Char) : Bool :=
  c = ' ' || c = '\t' || c = '\n' || c = '\r' || c = '\x0b' || c = '\x0c'

/-- Python str.strip(): drop whitespace from both ends. -/
def pyStrip (l : List Char) : List Char :=
  ((l.dropWhile isPySpace).reverse.dropWhile isPySpace).reverse

/-- Python s.replace(c, ""): remove every occurrence of the character. -/
def removeChar (c : Char) (l : List Char) : List Char :=
  l.filter (fun d => d ≠ c)

/-- Python s.replace(a, b) for single characters: map a to b. -/
def replaceChar (a b : Char) (l : List Char) : List Char :=
  l.map (fun c => if c = a then b else c)

/-- parse_num of src/app.py lines 57-73: converts a pt-BR numeric string
to a float. None and blank map to 0.0; the string is stripped, thousands
dots removed, the decimal comma turned into a dot, and handed to float();
a conversion failure yields 0.0. -/
def parse_num (raw : Option String) : PyFloat :=
  match raw with
  | none => PyFloat.finite 0
  | some r =>
    let s := pyStrip r.toList
    if s = [] then PyFloat.finite 0
    else
      let s2 := replaceChar ',' '.' (removeChar '.' s)
      match pyFloatOfChars s2 with
      | some v => v
      | none => PyFloat.finite 0

/-- Truncation toward zero, the behaviour of Python int() on a float. -/
def truncQ (q : ℚ) : ℤ :=
  if q < 0 then ⌈q⌉ else ⌊q⌋

/-- Python round to the nearest integer with ties to even (the rounding
used by round(x, n) and by the "%.2f" format), on the exact rational. -/
def roundHalfEven (q : ℚ) : ℤ :=
  if 2 * Int.fract q = 1 then (if 2 ∣ ⌊q⌋ then ⌊q⌋ else ⌊q⌋ + 1) else round q

/-- Python round(x, 2) on the exact rational. -/
def py_round2 (q : ℚ) : ℚ :=
  (roundHalfEven (100 * q) : ℚ) / 100

/-- The digit characters of n in base ten, most significant first, with a
comma inserted every three digits from the right: the integer part of the
Python format specification ",.2f". -/
def groupAux : List Char → List Char
  | a :: b :: c :: d :: rest => a :: b :: c :: ',' :: groupAux (d :: rest)
  | l => l

/-- Insert the thousands separators of the "," format option into a digit
string (most significant digit first). -/
def groupThrees (ds : List Char) : List Char :=
  (groupAux ds.reverse).reverse

/-- The text produced by the Python format f"{v:,.2f}" for a value whose
half-even rounding to two decimals is n cents: sign, grouped integer part,
a dot, and exactly two fractional digits. -/
def fmtCents (n : ℤ) : List Char :=
  let m : ℕ := n.natAbs
  let intDigits : List Char := Nat.toDigits 10 (m / 100)
  let fracDigits : List Char :=
    if m % 100 < 10 then ['0', Nat.digitChar (m % 100)] else Nat.toDigits 10 (m % 100)
  (if n < 0 then ['-'] else []) ++ groupThrees intDigits ++ ['.'] ++ fracDigits

/-- br_money of src/app.py lines 50-55: formats v as pt-BR currency by
producing f"R$ {v:,.2f}" and then swapping the comma and dot separators
through the intermediate character X. -/
def br_money (v : ℚ) : String :=
  let en : List Char := "R$ ".toList ++ fmtCents (roundHalfEven (100 * v))
  String.mk (replaceChar 'X' '.' (replaceChar '.' ',' (replaceChar ',' 'X' en)))

/-- The resultados dictionary built by the dashboard view of src/app.py
lines 173-187. Counts are integers, monetary and percentage values exact
rationals. -/
structure Resultados where
  leads : ℤ
  agendamentos : ℤ
  comparecimentos : ℤ
  vendas : ℤ
  receita : ℚ
  roas : ℚ
  cac : ℚ
  custo_por_call : ℚ
  sdrs : ℤ
  closers : ℤ
  taxa_total_funil : ℚ
  retorno_por_lead : ℚ
  lucro : ℚ
deriving DecidableEq, Repr

/-- The funnel computation of the dashboard POST branch, src/app.py lines
149-187, on the six parsed numeric inputs (the three rates still in
percent, as parsed; the division by 100 of lines 151-153 happens here). -/
def projectFunnel (investimento custo_lead taxa_agendamento_pct
    taxa_comparecimento_pct taxa_conversao_pct ticket_medio : ℚ) : Resultados :=
  let taxa_agendamento := taxa_agendamento_pct / 100
  let taxa_comparecimento := taxa_comparecimento_pct / 100
  let taxa_conversao := taxa_conversao_pct / 100
  let leads : ℤ := if custo_lead > 0 then truncQ (investimento / custo_lead) else 0
  let agendamentos : ℤ := truncQ ((leads : ℚ) * taxa_agendamento)
  let comparecimentos : ℤ := truncQ ((agendamentos : ℚ) * taxa_comparecimento)
  let vendas : ℤ := truncQ ((comparecimentos : ℚ) * taxa_conversao)
  let receita : ℚ := (vendas : ℚ) * ticket_medio
  let cac : ℚ := if vendas > 0 then investimento / (vendas : ℚ) else 0
  let roas : ℚ := if investimento > 0 then receita / investimento else 0
  let custo_por_call : ℚ := if comparecimentos > 0 then investimento / (comparecimentos : ℚ) else 0
  let sdrs : ℤ := max 1 ⌈(comparecimentos : ℚ) / 180⌉
  let closers : ℤ := max 1 ⌈(vendas : ℚ) / 120⌉
  let taxa_total_funil : ℚ := if leads > 0 then py_round2 ((vendas : ℚ) / (leads : ℚ) * 100) else 0
  let retorno_por_lead : ℚ := if leads > 0 then py_round2 (receita / (leads : ℚ)) else 0
  let lucro : ℚ := receita - investimento
  { leads := leads
    agendamentos := agendamentos
    comparecimentos := comparecimentos
    vendas := vendas
    receita := py_round2 receita
    roas := py_round2 roas
    cac := py_round2 cac
    custo_por_call := py_round2 custo_por_call
    sdrs := sdrs
    closers := closers
    taxa_total_funil := taxa_total_funil
    retorno_por_lead := py_round2 retorno_por_lead
    lucro := py_round2 lucro }

/-- A persisted Lead record, src/app.py lines 32-42. The identifier is
assigned by the store. -/
structure Lead where
  id : ℕ
  name : String
  phone : String
  email : String
  company : String
deriving DecidableEq, Repr

/-- The persistence store: the list of leads in insertion order together
with the next autoincrement identifier. -/
structure Store where
  leads : List Lead
  nextId : ℕ
deriving DecidableEq, Repr

/-- The response of the capture view: redisplay the capture form, or
redirect to the dashboard carrying a lead identifier. -/
inductive CaptureResponse where
  | renderCaptureForm
  | redirectToDashboard (lead_id : ℕ)
deriving DecidableEq, Repr

/-- The outcome of a capture POST: the store after the request, the
response, and the flashed messages with their categories. -/
structure CaptureOutcome where
  store : Store
  response : CaptureResponse
  flashes : List (String × String)
deriving DecidableEq, Repr

/-- Python (s or "").strip() as applied to each form field. -/
def pyStripStr (s : String) : String :=
  String.mk (pyStrip s.toList)

/-- The POST branch of the capture view, src/app.py lines 101-129: trim
the four fields, collect the field-specific error messages for blank
name, phone or email, and either flash the errors and redisplay the form
or persist one Lead and redirect to the dashboard with its identifier. -/
def capturePost (st : Store) (name phone email company : Option String) : CaptureOutcome :=
  let n := pyStripStr (name.getD "")
  let p := pyStripStr (phone.getD "")
  let e := pyStripStr (email.getD "")
  let c := pyStripStr (company.getD "")
  let errors : List String :=
    (if n = "" then ["Informe o seu nome."] else []) ++
    (if p = "" then ["Informe o seu telefone."] else []) ++
    (if e = "" then ["Informe o seu e-mail."] else [])
  if errors ≠ [] then
    { store := st
      response := CaptureResponse.renderCaptureForm
      flashes := errors.map (fun m => (m, "danger")) }
  else
    let lead : Lead := ⟨st.nextId, n, p, e, c⟩
    { store := { leads := st.leads ++ [lead], nextId := st.nextId + 1 }
      response := CaptureResponse.redirectToDashboard lead.id
      flashes := [("Dados recebidos com sucesso. Vamos iniciar sua análise comercial!", "success")] }

/-- Lead.query.get: look a lead up by its identifier. -/
def findLead (st : Store) (i : ℤ) : Option Lead :=
  st.leads.find? (fun l => (l.id : ℤ) = i)

/-- What the dashboard view renders: the optional lead shown at the top
and the optional resultados dictionary. -/
structure DashboardRender where
  lead : Option Lead
  resultados : Option Resultados
deriving Repr

/-- The dashboard view, src/app.py lines 133-189: look up the lead when a
nonzero lead_id is in the query string, compute the resultados when the
request is a POST carrying the six numeric fields (given here as the
parsed rational values), and return the store as the handler leaves it
together with the rendered data. -/
def dashboard (st : Store) (lead_id : Option ℤ)
    (form : Option (ℚ × ℚ × ℚ × ℚ × ℚ × ℚ)) : Store × DashboardRender :=
  let lead : Option Lead :=
    match lead_id with
    | some i => if i ≠ 0 then findLead st i else none
    | none => none
  let resultados : Option Resultados :=
    match form with
    | some (inv, cpl, ta, tc, tv, tm) => some (projectFunnel inv cpl ta tc tv tm)
    | none => none
  (st, { lead := lead, resultados := resultados })

/-- Truncation of zero is zero. -/
theorem truncQ_zero : truncQ 0 = 0 := by norm_num [truncQ]

/-- Rounding zero to two decimals gives zero. -/
theorem py_round2_zero : py_round2 0 = 0 := by
  norm_num [py_round2, roundHalfEven, Int.fract, round_eq]

/-- C1: for every six numeric inputs the funnel projector computes the
count stages by the derivation chain of the spec: leads is the truncation
of investment / costPerLead when costPerLead is positive and 0 otherwise,
and each later stage is the truncation toward zero of the previous count
times its rate divided by 100. -/
theorem C1_funnel_stage_counts (inv cpl ta tc tv tm : ℚ) :
    (projectFunnel inv cpl ta tc tv tm).leads = (if 0 < cpl then truncQ (inv / cpl) else 0) ∧
    (projectFunnel inv cpl ta tc tv tm).agendamentos =
      truncQ (((projectFunnel inv cpl ta tc tv tm).leads : ℚ) * (ta / 100)) ∧
    (projectFunnel inv cpl ta tc tv tm).comparecimentos =
      truncQ (((projectFunnel inv cpl ta tc tv tm).agendamentos : ℚ) * (tc / 100)) ∧
    (projectFunnel inv cpl ta tc tv tm).vendas =
      truncQ (((projectFunnel inv cpl ta tc tv tm).comparecimentos : ℚ) * (tv / 100)) :=
  ⟨rfl, rfl, rfl, rfl⟩

/-- C2: every division of the funnel projector is guarded by a strict
positivity test on its denominator, so the function is total: when a
guard fails the corresponding output is 0, and with investment = 0 and
costPerLead = 0 the leads count and every ratio-based output are 0. -/
theorem C2_guarded_divisions (inv cpl ta tc tv tm : ℚ) :
    (¬ 0 < cpl → (projectFunnel inv cpl ta tc tv tm).leads = 0) ∧
    (¬ 0 < (projectFunnel inv cpl ta tc tv tm).vendas →
      (projectFunnel inv cpl ta tc tv tm).cac = 0) ∧
    (¬ 0 < inv → (projectFunnel inv cpl ta tc tv tm).roas = 0) ∧
    (¬ 0 < (projectFunnel inv cpl ta tc tv tm).comparecimentos →
      (projectFunnel inv cpl ta tc tv tm).custo_por_call = 0) ∧
    (¬ 0 < (projectFunnel inv cpl ta tc tv tm).leads →
      (projectFunnel inv cpl ta tc tv tm).taxa_total_funil = 0 ∧
      (projectFunnel inv cpl ta tc tv tm).retorno_por_lead = 0) ∧
    ((projectFunnel 0 0 ta tc tv tm).leads = 0 ∧
     (projectFunnel 0 0 ta tc tv tm).cac = 0 ∧
     (projectFunnel 0 0 ta tc tv tm).roas = 0 ∧
     (projectFunnel 0 0 ta tc tv tm).custo_por_call = 0 ∧
     (projectFunnel 0 0 ta tc tv tm).taxa_total_funil = 0 ∧
     (projectFunnel 0 0 ta tc tv tm).retorno_por_lead = 0) := by
  refine ⟨?_, ?_, ?_, ?_, ?_, ?_⟩
  · intro h
    simp only [projectFunnel, gt_iff_lt]
    rw [if_neg h]
  · intro h
    simp only [projectFunnel, gt_iff_lt] at h ⊢
    rw [if_neg h, py_round2_zero]
  · intro h
    simp only [projectFunnel, gt_iff_lt] at h ⊢
    rw [if_neg h, py_round2_zero]
  · intro h
    simp only [projectFunnel, gt_iff_lt] at h ⊢
    rw [if_neg h, py_round2_zero]
  · intro h
    simp only [projectFunnel, gt_iff_lt] at h ⊢
    rw [if_neg h, if_neg h]
    exact ⟨rfl, py_round2_zero⟩
  · simp only [projectFunnel, gt_iff_lt]
    norm_num [truncQ_zero, py_round2_zero]

/-- C2 witness: at investment = 0, costPerLead = 0 and the example rates,
the guards all fail and the outputs are zero. -/
theorem C2_guarded_divisions_witness :
    (projectFunnel 0 0 20 80 25 500).leads = 0 ∧
    (projectFunnel 0 0 20 80 25 500).roas = 0 ∧
    (projectFunnel 0 0 20 80 25 500).cac = 0 := by
  have h := C2_guarded_divisions 0 0 20 80 25 500
  exact ⟨h.1 (by norm_num), h.2.2.1 (by norm_num), h.2.2.2.2.2.2.1⟩

/-- C3: the worked example of the spec: investment 10000, cost per lead
50, scheduling rate 20, attendance rate 80, conversion rate 25 and
average ticket 500 give 200 leads, 40 appointments, 32 attendances, 8
sales, revenue 4000, profit -6000, one scheduler and one closer. -/
theorem C3_example_projection :
    (projectFunnel 10000 50 20 80 25 500).leads = 200 ∧
    (projectFunnel 10000 50 20 80 25 500).agendamentos = 40 ∧
    (projectFunnel 10000 50 20 80 25 500).comparecimentos = 32 ∧
    (projectFunnel 10000 50 20 80 25 500).vendas = 8 ∧
    (projectFunnel 10000 50 20 80 25 500).receita = 4000 ∧
    (projectFunnel 10000 50 20 80 25 500).lucro = -6000 ∧
    (projectFunnel 10000 50 20 80 25 500).sdrs = 1 ∧
    (projectFunnel 10000 50 20 80 25 500).closers = 1 := by
  simp only [projectFunnel]
  norm_num [truncQ, py_round2, roundHalfEven, Int.fract, round_eq, Int.ceil_eq_iff]

/-- C4: for every numeric input, schedulersNeeded is max 1 of the ceiling
of attendances / 180 and closersNeeded is max 1 of the ceiling of
sales / 120, and both are at least 1. -/
theorem C4_staffing (inv cpl ta tc tv tm : ℚ) :
    (projectFunnel inv cpl ta tc tv tm).sdrs =
      max 1 ⌈((projectFunnel inv cpl ta tc tv tm).comparecimentos : ℚ) / 180⌉ ∧
    (projectFunnel inv cpl ta tc tv tm).closers =
      max 1 ⌈((projectFunnel inv cpl ta tc tv tm).vendas : ℚ) / 120⌉ ∧
    1 ≤ (projectFunnel inv cpl ta tc tv tm).sdrs ∧
    1 ≤ (projectFunnel inv cpl ta tc tv tm).closers :=
  ⟨rfl, rfl, le_max_left 1 _, le_max_left 1 _⟩

/-- C5: parse_num maps absent input to 0, maps every string that strips
to blank to 0, strips surrounding whitespace, removes the thousands dots
and turns the decimal comma into a dot (so "1.234,56" denotes 1234.56),
and returns 0 on a string float() rejects, such as "abc". -/
theorem C5_parse_locale :
    parse_num none = PyFloat.finite 0 ∧
    (∀ s : String, pyStrip s.toList = [] → parse_num (some s) = PyFloat.finite 0) ∧
    parse_num (some "1.234,56") = PyFloat.finite (123456 / 100) ∧
    parse_num (some " 1.234,56 ") = PyFloat.finite (123456 / 100) ∧
    parse_num (some "") = PyFloat.finite 0 ∧
    parse_num (some "abc") = PyFloat.finite 0 := by
  refine ⟨rfl, ?_, ?_, ?_, rfl, rfl⟩
  · intro s h
    simp only [parse_num]
    rw [if_pos h]
  · have h : parse_num (some "1.234,56") =
        PyFloat.finite (partsVal ⟨false, 1234, 56, 2, false, 0⟩) := rfl
    rw [h]
    norm_num [partsVal]
  · have h : parse_num (some " 1.234,56 ") =
        PyFloat.finite (partsVal ⟨false, 1234, 56, 2, false, 0⟩) := rfl
    rw [h]
    norm_num [partsVal]

/-- C5 witness: a string of spaces strips to blank and parses to 0. -/
theorem C5_parse_locale_witness :
    pyStrip "   ".toList = [] ∧ parse_num (some "   ") = PyFloat.finite 0 :=
  ⟨rfl, C5_parse_locale.2.1 "   " rfl⟩

/-- C6: br_money renders a value with two decimal digits, the thousands
grouped with dots and a decimal comma after the currency marker: 1234.5
gives R$ 1.234,50, several groups and the sign are placed correctly, and
zero gives the zero representation R$ 0,00. -/
theorem C6_format_currency :
    br_money (2469 / 2) = "R$ 1.234,50" ∧
    br_money 0 = "R$ 0,00" ∧
    br_money (123456789 / 100) = "R$ 1.234.567,89" ∧
    br_money (-6000) = "R$ -6.000,00" := by
  have h1 : roundHalfEven (100 * (2469 / 2 : ℚ)) = 123450 := by
    norm_num [roundHalfEven, Int.fract, round_eq]
  have h2 : roundHalfEven (100 * (0 : ℚ)) = 0 := by
    norm_num [roundHalfEven, Int.fract, round_eq]
  have h3 : roundHalfEven (100 * (123456789 / 100 : ℚ)) = 123456789 := by
    norm_num [roundHalfEven, Int.fract, round_eq]
  have h4 : roundHalfEven (100 * (-6000 : ℚ)) = -600000 := by
    norm_num [roundHalfEven, Int.fract, round_eq]
  refine ⟨?_, ?_, ?_, ?_⟩
  · simp only [br_money, h1]; rfl
  · simp only [br_money, h2]; rfl
  · simp only [br_money, h3]; rfl
  · simp only [br_money, h4]; rfl

/-- C7: a capture submission with a blank (after stripping) name, phone
or email leaves the store unchanged, redisplays the capture form, and
flashes the field-specific error message of each blank field. -/
theorem C7_capture_validation (st : Store) (name phone email company : Option String)
    (h : pyStripStr (name.getD "") = "" ∨ pyStripStr (phone.getD "") = "" ∨
         pyStripStr (email.getD "") = "") :
    (capturePost st name phone email company).store = st ∧
    (capturePost st name phone email company).response = CaptureResponse.renderCaptureForm ∧
    (pyStripStr (name.getD "") = "" →
      ("Informe o seu nome.", "danger") ∈ (capturePost st name phone email company).flashes) ∧
    (pyStripStr (phone.getD "") = "" →
      ("Informe o seu telefone.", "danger") ∈ (capturePost st name phone email company).flashes) ∧
    (pyStripStr (email.getD "") = "" →
      ("Informe o seu e-mail.", "danger") ∈ (capturePost st name phone email company).flashes) := by
  by_cases hn : pyStripStr (name.getD "") = "" <;>
  by_cases hp : pyStripStr (phone.getD "") = "" <;>
  by_cases he : pyStripStr (email.getD "") = "" <;>
  simp_all [capturePost]

/-- C7 witness: a submission whose name strips to blank leaves the empty
store unchanged and flashes the name error. -/
theorem C7_capture_validation_witness :
    (capturePost ⟨[], 1⟩ (some " ") (some "19") (some "a@b.c") none).store = ⟨[], 1⟩ ∧
    (capturePost ⟨[], 1⟩ (some " ") (some "19") (some "a@b.c") none).response =
      CaptureResponse.renderCaptureForm ∧
    ("Informe o seu nome.", "danger") ∈
      (capturePost ⟨[], 1⟩ (some " ") (some "19") (some "a@b.c") none).flashes := by
  have h := C7_capture_validation ⟨[], 1⟩ (some " ") (some "19") (some "a@b.c") none
    (Or.inl rfl)
  exact ⟨h.1, h.2.1, h.2.2.1 rfl⟩

/-- C8: a capture submission whose name, phone and email are non-blank
after stripping appends exactly one Lead, carrying the next identifier
and the stripped fields, and redirects to the dashboard with that
identifier. -/
theorem C8_capture_success (st : Store) (name phone email company : Option String)
    (hn : pyStripStr (name.getD "") ≠ "") (hp : pyStripStr (phone.getD "") ≠ "")
    (he : pyStripStr (email.getD "") ≠ "") :
    (capturePost st name phone email company).store.leads =
      st.leads ++ [⟨st.nextId, pyStripStr (name.getD ""), pyStripStr (phone.getD ""),
                    pyStripStr (email.getD ""), pyStripStr (company.getD "")⟩] ∧
    (capturePost st name phone email company).store.nextId = st.nextId + 1 ∧
    (capturePost st name phone email company).response =
      CaptureResponse.redirectToDashboard st.nextId := by
  simp [capturePost, hn, hp, he]

/-- C8 witness: a concrete successful submission appends one lead with
identifier 1 and redirects with it. -/
theorem C8_capture_success_witness :
    (capturePost ⟨[], 1⟩ (some "Ana") (some "19") (some "a@b.c") (some "ACME")).store.leads =
      [⟨1, "Ana", "19", "a@b.c", "ACME"⟩] ∧
    (capturePost ⟨[], 1⟩ (some "Ana") (some "19") (some "a@b.c") (some "ACME")).response =
      CaptureResponse.redirectToDashboard 1 := by
  have h := C8_capture_success ⟨[], 1⟩ (some "Ana") (some "19") (some "a@b.c") (some "ACME")
    (by decide) (by decide) (by decide)
  refine ⟨?_, h.2.2⟩
  rw [h.1]
  rfl

/-- C9: the dashboard request leaves the store unchanged, and the lead it
renders, when present, is a record already in the store: the handler only
looks the lead up and never inserts, updates or deletes. -/
theorem C9_dashboard_frame (st : Store) (lead_id : Option ℤ)
    (form : Option (ℚ × ℚ × ℚ × ℚ × ℚ × ℚ)) :
    (dashboard st lead_id form).1 = st ∧
    (∀ l : Lead, (dashboard st lead_id form).2.lead = some l → l ∈ st.leads) := by
  refine ⟨rfl, ?_⟩
  intro l hl
  cases lead_id with
  | none => simp [dashboard] at hl
  | some i =>
    simp only [dashboard] at hl
    split at hl
    · exact List.mem_of_find?_eq_some hl
    · simp at hl

/-- C9 witness: a dashboard request on a one-lead store returns the store
unchanged and shows that stored lead. -/
theorem C9_dashboard_frame_witness :
    (dashboard ⟨[⟨1, "Ana", "19", "a@b.c", "ACME"⟩], 2⟩ (some 1) none).1 =
      ⟨[⟨1, "Ana", "19", "a@b.c", "ACME"⟩], 2⟩ ∧
    (⟨1, "Ana", "19", "a@b.c", "ACME"⟩ : Lead) ∈
      (⟨[⟨1, "Ana", "19", "a@b.c", "ACME"⟩], 2⟩ : Store).leads := by
  have h := C9_dashboard_frame ⟨[⟨1, "Ana", "19", "a@b.c", "ACME"⟩], 2⟩ (some 1) none
  exact ⟨h.1, h.2 ⟨1, "Ana", "19", "a@b.c", "ACME"⟩ rfl⟩

/-- C10: parse_num accepts strings that are not pt-BR numerals: any
string that float() accepts after the dot removal and comma swap parses,
so "1e3" gives 1000, "1.5" gives 15 because every dot is removed before
conversion, and "inf" and "nan" give the non-finite values rather
than 0. -/
theorem C10_parse_beyond_locale :
    parse_num (some "1e3") = PyFloat.finite 1000 ∧
    parse_num (some "1.5") = PyFloat.finite 15 ∧
    parse_num (some "inf") = PyFloat.inf ∧
    parse_num (some "nan") = PyFloat.nan ∧
    (parse_num (some "inf")).isFinite = false ∧
    (parse_num (some "nan")).isFinite = false := by
  refine ⟨?_, ?_, rfl, rfl, rfl, rfl⟩
  · have h : parse_num (some "1e3") =
        PyFloat.finite (partsVal ⟨false, 1, 0, 0, false, 3⟩) := rfl
    rw [h]
    norm_num [partsVal]
  · have h : parse_num (some "1.5") =
        PyFloat.finite (partsVal ⟨false, 15, 0, 0, false, 0⟩) := rfl
    rw [h]
    norm_num [partsVal]
